import Mathlib

set_option autoImplicit false

/-!
Shallow embedding of `src/test1.py` (libsql client/server benchmark).

Python wall-clock reads (`time.time()`) are modelled by passing the successive
readings as explicit integer clock-tick arguments, in the order the source reads them.
Python dicts over string keys are modelled as association lists with
Python's insertion semantics.  Exceptions are modelled with `Except` /
explicit failure constructors: a caught `LibsqlError` becomes data, every
other exception is a `fatal` outcome that propagates.
-/

namespace LibsqlBench

/-- A SQL value appearing in a row of a result set. -/
inductive Value where
  | int (n : Int)
  | text (s : String)
  | null
  deriving DecidableEq

/-- The error payload built in `SQLClient.execute`'s except-branch:
`{"message": ex.explanation, "code": ex.code}`. -/
structure ErrorDesc where
  message : String
  code : String
  deriving DecidableEq

/-- The raw result set the libsql client returns on success
(`result_set.columns`, `.rows`, `.last_insert_rowid`, `.rows_affected`). -/
structure ResultSet where
  columns : List String
  rows : List (List Value)
  last_insert_rowid : Option Int
  rows_affected : Int
  deriving DecidableEq

/-- A record built by `ResultObject._init_result_set`: a Python dict from
column name to value, modelled as an association list in insertion order. -/
abbrev Record := List (String × Value)

/-- Python dict read `record[k]` (first matching key; our builder keeps keys
unique, matching dict semantics). -/
def pyGet : Record → String → Option Value
  | [], _ => none
  | (k', v) :: rest, k => if k' = k then some v else pyGet rest k

/-- Python dict write `record[k] = v`: an existing key keeps its insertion
position and gets its value replaced, a new key is appended at the end. -/
def dictInsert (d : Record) (k : String) (v : Value) : Record :=
  if (pyGet d k).isSome then
    d.map (fun p => if p.1 = k then (k, v) else p)
  else
    d ++ [(k, v)]

/-- The inner loop of `_init_result_set` for one row:
`for x, field in enumerate(row): record[result_set.columns[x]] = field`.
Returns `none` when `columns[x]` would raise `IndexError`
(a row longer than the column list). -/
def buildRecordAux (cols : List String) : Record → Nat → List Value → Option Record
  | record, _, [] => some record
  | record, x, field :: rest =>
    match cols[x]? with
    | none => none
    | some c => buildRecordAux cols (dictInsert record c field) (x + 1) rest

/-- Proof-side restatement of the inner loop: walks the still-unconsumed
column suffix structurally instead of indexing.  Related to
`buildRecordAux` by `buildRecordAux_eq_from`. -/
def buildRecordFrom : List Value → List String → Record → Option Record
  | [], _, record => some record
  | _ :: _, [], _ => none
  | field :: rest, c :: cs, record => buildRecordFrom rest cs (dictInsert record c field)

/-- Builds the record dict for one row of the result set. -/
def buildRecord (cols : List String) (row : List Value) : Option Record :=
  buildRecordAux cols [] 0 row

/-- The outer loop of `_init_result_set`: builds one record per row, in row
order, propagating an `IndexError` from any row. -/
def buildRecords (cols : List String) : List (List Value) → Option (List Record)
  | [] => some []
  | row :: rest =>
    match buildRecord cols row with
    | none => none
    | some record =>
      match buildRecords cols rest with
      | none => none
      | some records => some (record :: records)

/-- `ResultObject`: the dynamic attribute bag.  `__init__` presets every slot
to `None`; keyword arguments or `_init_result_set` overwrite some of them.
All slots are therefore `Option`-typed with default `none`. -/
structure ResultObject where
  columns : Option (List String) := none
  records : Option (List Record) := none
  last_insert_rowid : Option Int := none
  rows_affected : Option Int := none
  count : Option Nat := none
  error : Option ErrorDesc := none
  success : Option Bool := none
  request_duration : Option ℤ := none
  serialization_duration : Option ℤ := none
  total_duration : Option ℤ := none
  deriving DecidableEq

/-- `ResultObject._init_result_set` (src/test1.py lines 26-42): normalizes a
raw result set; `none` models an escaping `IndexError`. -/
def initResultSet (rs : ResultSet) : Option ResultObject :=
  match buildRecords rs.columns rs.rows with
  | none => none
  | some records =>
    some { columns := some rs.columns
           records := some records
           last_insert_rowid := rs.last_insert_rowid
           rows_affected := some rs.rows_affected
           count := some records.length
           success := some true }

/-- The possible outcomes of the underlying `libsql_client` call inside
`SQLClient.execute`: a successful result set, a backend `LibsqlError`
(with explanation and code), or any other exception. -/
inductive RawOutcome where
  | ok (result_set : ResultSet)
  | libsqlError (message code : String)
  | otherError (message : String)
  deriving DecidableEq

/-- What `SQLClient.execute` does from the caller's point of view: either it
returns a `ResultObject`, or an exception propagates (`fatal`). -/
inductive ExecResult where
  | ok (r : ResultObject)
  | fatal (message : String)
  deriving DecidableEq

/-- `SQLClient.execute` (src/test1.py lines 64-78).  `t0 t1 t2 t3 t4` are the
five successive `time.time()` readings of the success path:
`time_start`, the read after the awaited call, `start_serialization`, the
read for `serialization_duration`, and the read for `total_duration`.
A `LibsqlError` is caught and returned as a failure `ResultObject`
(only `success` and `error` set); any other exception propagates. -/
def SQLClient.execute (outcome : RawOutcome) (t0 t1 t2 t3 t4 : ℤ) : ExecResult :=
  match outcome with
  | RawOutcome.libsqlError message code =>
      ExecResult.ok { success := some false, error := some ⟨message, code⟩ }
  | RawOutcome.otherError message => ExecResult.fatal message
  | RawOutcome.ok result_set =>
      match initResultSet result_set with
      | none => ExecResult.fatal "IndexError"
      | some obj =>
          ExecResult.ok { obj with
            request_duration := some (t1 - t0)
            serialization_duration := some (t3 - t2)
            total_duration := some (t4 - t0) }

/-- `Bench` (src/test1.py lines 81-111): the scoped timer. `__init__` sets
`time_start`, `time_end` and the cached duration to `None` (the statement
`self.duration = None` goes through the property setter into the cache). -/
structure Bench where
  title : Option String := none
  time_start : Option ℤ := none
  time_end : Option ℤ := none
  _duration : Option ℤ := none
  deriving DecidableEq

/-- Python truthiness of the cached duration slot as tested by
`if not self._duration:`: both `None` and `0.0` are falsy. -/
def pyFalsy : Option ℤ → Bool
  | none => true
  | some q => q == 0

/-- `Bench.__enter__` at clock reading `t`: records the start instant
(the print is a side effect outside the model). -/
def Bench.enter (b : Bench) (t : ℤ) : Bench :=
  { b with time_start := some t }

/-- `Bench.reset` at clock reading `t`: clears the end instant and the cached
duration and restarts the start instant. -/
def Bench.reset (b : Bench) (t : ℤ) : Bench :=
  { b with time_end := none, _duration := none, time_start := some t }

/-- The `duration` property read (src/test1.py lines 98-103).  When the cache
is falsy the property reads the clock twice (`ta` for `time_end`, `tb` for
the subtraction) and caches `tb - time_start`; reading with `time_start`
still `None` raises a `TypeError` (float minus None).  When the cache is
truthy the cached value is returned and the state is untouched. -/
def Bench.durationRead (b : Bench) (ta tb : ℤ) : Except String (ℤ × Bench) :=
  if pyFalsy b._duration then
    match b.time_start with
    | none => Except.error "TypeError"
    | some ts =>
        Except.ok (tb - ts, { b with time_end := some ta, _duration := some (tb - ts) })
  else
    match b._duration with
    | some d => Except.ok (d, b)
    | none => Except.error "unreachable"

/-- Outcome of a (fuel-instrumented) poll loop: converged at a given attempt
index after a given number of sleep calls, aborted by a propagating
exception, or still running when the fuel ran out. -/
inductive PollResult where
  | done (attempt sleeps : Nat)
  | fatal (message : String)
  | running
  deriving DecidableEq

/-- Sleep length of the schema-sync poll loop: `asyncio.sleep(1)`. -/
def schemaSyncSleepSeconds : ℤ := 1

/-- Sleep length of the read-convergence poll loop: `asyncio.sleep(2)`. -/
def readConvSleepSeconds : ℤ := 2

/-- The schema-sync wait loop (src/test1.py lines 142-145):
`while (await client.execute("SELECT * from sqlite_schema")).count != 2:`
`    await asyncio.sleep(1)`.
`obs k` is the `ResultObject` of the k-th attempt; the loop exits exactly
when an attempt's `count` equals 2, otherwise it sleeps once and retries.
`fuel` only bounds how far we unroll the (unbounded) source loop. -/
def schemaSyncLoop (obs : Nat → ResultObject) : Nat → Nat → Nat → PollResult
  | 0, _, _ => PollResult.running
  | fuel + 1, k, sleeps =>
      if (obs k).count = some 2 then PollResult.done k sleeps
      else schemaSyncLoop obs fuel (k + 1) (sleeps + 1)

/-- The extraction `(...).records[0]["c"]` (src/test1.py lines 169-171)
applied to one poll attempt's `ResultObject`: `records` being `None` raises
`TypeError`, an empty record list raises `IndexError`, a missing `"c"` key
raises `KeyError`. -/
def extractInsertedCount (r : ResultObject) : Except String Value :=
  match r.records with
  | none => Except.error "TypeError"
  | some [] => Except.error "IndexError"
  | some (record :: _) =>
      match pyGet record "c" with
      | none => Except.error "KeyError"
      | some v => Except.ok v

/-- Python `==` between the extracted SQL value and the integer
`record_count`: true only for an equal integer value (a non-integer value
compares unequal without raising). -/
def valueEqInt (v : Value) (n : Int) : Bool :=
  match v with
  | Value.int m => m == n
  | _ => false

/-- The read-back convergence wait loop (src/test1.py lines 167-178):
`while True:` read `records_inserted`, break if it equals `record_count`,
else `await asyncio.sleep(2)` and retry.  An exception raised by the
extraction propagates (`fatal`); `fuel` only bounds the unrolling. -/
def readConvLoop (obs : Nat → ResultObject) (record_count : Int) :
    Nat → Nat → Nat → PollResult
  | 0, _, _ => PollResult.running
  | fuel + 1, k, sleeps =>
      match extractInsertedCount (obs k) with
      | Except.error m => PollResult.fatal m
      | Except.ok v =>
          if valueEqInt v record_count then PollResult.done k sleeps
          else readConvLoop obs record_count fuel (k + 1) (sleeps + 1)

/-- The final report of `execute_bench` (src/test1.py lines 183-191).
All four fields are clock-tick durations. -/
structure BenchReport where
  duration_syncing : ℤ
  duration_insert : ℤ
  duration_total : ℤ
  duration_total_without_waiting : ℤ
  deriving DecidableEq

/-- Assembly of the report dict.  `t1` and `t2` are the two separate
`time.time()` readings of lines 187 and 188: `duration_total` is
`t1 - bench_start` while `duration_total_without_waiting` is
`t2 - bench_start - time_waited`, with `t2` read after `t1`. -/
def makeReport (bench_start time_waited duration_insert t1 t2 : ℤ) : BenchReport :=
  { duration_syncing := time_waited
    duration_insert := duration_insert
    duration_total := t1 - bench_start
    duration_total_without_waiting := t2 - bench_start - time_waited }

/-- The DDL issued by the Creating phase (src/test1.py line 130). -/
def createStatement : String :=
  "create table pony (id INTEGER PRIMARY KEY AUTOINCREMENT, name, age, color)"

/-- The DDL issued by the rejected-recreate check (src/test1.py line 136). -/
def recreateStatement : String :=
  "create table pony (id, name, age, color)"

/-- The assertion of the rejected-recreate check (src/test1.py lines 135-137):
`assert (...).success is False`.  Passing requires `success` to be exactly
the object `False`; anything else raises `AssertionError`, which aborts the
run. -/
def verifyRejectedRecreate (r : ResultObject) : Except String Unit :=
  if r.success = some false then Except.ok () else Except.error "AssertionError"

/-!
### Theorems
-/

/-- Claim C1, counterexample.  The claim says every report satisfies
`duration_total_without_waiting = duration_total - duration_syncing`
exactly.  The source computes the two fields from two separate
`time.time()` readings (lines 187 and 188); with the second reading one
second later (`t1 = 2`, `t2 = 3`, a reachable clock behaviour) the identity
fails: `duration_total_without_waiting = 2` but
`duration_total - duration_syncing = 1`. -/
theorem C1_counterexample :
    (makeReport 0 1 0 2 3).duration_total_without_waiting ≠
      (makeReport 0 1 0 2 3).duration_total - (makeReport 0 1 0 2 3).duration_syncing := by
  decide

/-- Claim C1, amended.  `duration_total_without_waiting` exceeds
`duration_total - duration_syncing` by exactly the clock advance `t2 - t1`
between the two `time.time()` readings of the report assembly; with a
monotone clock it is `≥`, and the claimed exact identity holds precisely
when the two readings coincide. -/
theorem C1_amended (bench_start time_waited duration_insert t1 t2 : ℤ) (h : t1 ≤ t2) :
    (makeReport bench_start time_waited duration_insert t1 t2).duration_total_without_waiting
      = (makeReport bench_start time_waited duration_insert t1 t2).duration_total
        - (makeReport bench_start time_waited duration_insert t1 t2).duration_syncing
        + (t2 - t1)
    ∧ (makeReport bench_start time_waited duration_insert t1 t2).duration_total
        - (makeReport bench_start time_waited duration_insert t1 t2).duration_syncing
      ≤ (makeReport bench_start time_waited duration_insert t1 t2).duration_total_without_waiting
    ∧ (t1 = t2 →
        (makeReport bench_start time_waited duration_insert t1 t2).duration_total_without_waiting
          = (makeReport bench_start time_waited duration_insert t1 t2).duration_total
            - (makeReport bench_start time_waited duration_insert t1 t2).duration_syncing) := by
  refine ⟨by simp [makeReport]; ring, by simp [makeReport]; linarith, fun he => ?_⟩
  subst he
  simp [makeReport]

/-- Claim C1, witness for the amended theorem at concrete readings. -/
theorem C1_witness :
    (makeReport 0 1 0 2 3).duration_total_without_waiting
      = (makeReport 0 1 0 2 3).duration_total - (makeReport 0 1 0 2 3).duration_syncing
        + ((3 : ℤ) - 2)
    ∧ (makeReport 0 1 0 2 3).duration_total - (makeReport 0 1 0 2 3).duration_syncing
      ≤ (makeReport 0 1 0 2 3).duration_total_without_waiting
    ∧ ((2 : ℤ) = 3 →
        (makeReport 0 1 0 2 3).duration_total_without_waiting
          = (makeReport 0 1 0 2 3).duration_total
            - (makeReport 0 1 0 2 3).duration_syncing) :=
  C1_amended 0 1 0 2 3 (by decide)

/-- Claim C2.  A backend-level `LibsqlError` is caught: `execute` returns
(rather than throws) a `ResultObject` with `success = False`,
`error = {message, code}` and every data field still `None`; any other
exception propagates to the caller as a fatal error. -/
theorem C2_execute (message code other : String) (t0 t1 t2 t3 t4 s0 s1 s2 s3 s4 : ℤ) :
    (∃ r, SQLClient.execute (RawOutcome.libsqlError message code) t0 t1 t2 t3 t4
            = ExecResult.ok r
          ∧ r.success = some false
          ∧ r.error = some ⟨message, code⟩
          ∧ r.columns = none ∧ r.records = none ∧ r.last_insert_rowid = none
          ∧ r.rows_affected = none ∧ r.count = none)
    ∧ SQLClient.execute (RawOutcome.otherError other) s0 s1 s2 s3 s4
        = ExecResult.fatal other :=
  ⟨⟨_, rfl, rfl, rfl, rfl, rfl, rfl, rfl, rfl⟩, rfl⟩

/-- Claim C4, counterexample.  The claim says the VerifyingRejectedRecreate
phase re-issues the same create statement as the Creating phase; the source
issues a different statement (line 136 omits the column constraints of
line 130). -/
theorem C4_counterexample : createStatement ≠ recreateStatement := by
  decide

/-- Claim C4, amended.  The phase issues a create statement for the same
table with a reduced column specification (not the identical statement
text) and asserts the result reports failure (`success is False`); any
other result raises `AssertionError`, aborting the run, while a failing
result lets the run continue. -/
theorem C4_amended (r : ResultObject) (h : r.success ≠ some false) :
    createStatement ≠ recreateStatement
    ∧ verifyRejectedRecreate r = Except.error "AssertionError"
    ∧ verifyRejectedRecreate { success := some false } = Except.ok () := by
  refine ⟨by decide, ?_, rfl⟩
  simp [verifyRejectedRecreate, h]

/-- Claim C4, witness: a result whose `success` slot is still `None` makes
the assertion abort. -/
theorem C4_witness :
    createStatement ≠ recreateStatement
    ∧ verifyRejectedRecreate { } = Except.error "AssertionError"
    ∧ verifyRejectedRecreate { success := some false } = Except.ok () :=
  C4_amended { } (by decide)

/-- Claim C5, counterexample.  The claim says `total_duration` equals
`request_duration + serialization_duration`.  The source measures
`total_duration` end-to-end with its own `time.time()` reading; with the
successive readings 0, 1, 2, 3, 4 the request and serialization durations
are 1 each while the total is 4. -/
theorem C5_counterexample :
    SQLClient.execute (RawOutcome.ok ⟨[], [], none, 0⟩) 0 1 2 3 4
      = ExecResult.ok
          { columns := some [], records := some [], last_insert_rowid := none
            rows_affected := some 0, count := some 0, success := some true
            request_duration := some (1 - 0)
            serialization_duration := some (3 - 2)
            total_duration := some (4 - 0) }
    ∧ ((4 : ℤ) - 0 ≠ (1 - 0) + (3 - 2)) := by
  exact ⟨rfl, by decide⟩

/-- Claim C5, amended.  On success the executor fills
`request_duration = t1 - t0`, `serialization_duration = t3 - t2` and
`total_duration = t4 - t0` from five successive clock readings; with a
monotone clock the total is at least the sum of the two parts, exceeding it
by exactly the unmeasured gaps `(t2 - t1) + (t4 - t3)`. -/
theorem C5_amended (rs : ResultSet) (obj : ResultObject) (t0 t1 t2 t3 t4 : ℤ)
    (hobj : initResultSet rs = some obj)
    (h01 : t0 ≤ t1) (h12 : t1 ≤ t2) (h23 : t2 ≤ t3) (h34 : t3 ≤ t4) :
    SQLClient.execute (RawOutcome.ok rs) t0 t1 t2 t3 t4
      = ExecResult.ok { obj with
          request_duration := some (t1 - t0)
          serialization_duration := some (t3 - t2)
          total_duration := some (t4 - t0) }
    ∧ (t1 - t0) + (t3 - t2) ≤ t4 - t0
    ∧ (t4 - t0) - ((t1 - t0) + (t3 - t2)) = (t2 - t1) + (t4 - t3) := by
  refine ⟨?_, by linarith, by ring⟩
  simp [SQLClient.execute, hobj]

/-- Claim C5, witness for the amended theorem at concrete readings. -/
theorem C5_witness :
    SQLClient.execute (RawOutcome.ok ⟨[], [], none, 0⟩) 0 1 2 3 4
      = ExecResult.ok
          { columns := some [], records := some [], last_insert_rowid := none
            rows_affected := some 0, count := some 0, success := some true
            request_duration := some ((1 : ℤ) - 0)
            serialization_duration := some ((3 : ℤ) - 2)
            total_duration := some ((4 : ℤ) - 0) }
    ∧ ((1 : ℤ) - 0) + ((3 : ℤ) - 2) ≤ (4 : ℤ) - 0
    ∧ ((4 : ℤ) - 0) - (((1 : ℤ) - 0) + ((3 : ℤ) - 2)) = ((2 : ℤ) - 1) + ((4 : ℤ) - 3) :=
  C5_amended ⟨[], [], none, 0⟩
    { columns := some [], records := some [], last_insert_rowid := none
      rows_affected := some 0, count := some 0, success := some true }
    0 1 2 3 4 rfl (by decide) (by decide) (by decide) (by decide)

/-- Claim C6, counterexample.  The claim says the first read of `duration`
caches the value and every later read (until reset) returns exactly that
cached value without re-reading the clock.  The cache test is Python
truthiness (`if not self._duration`), so a cached value of `0.0` — which
occurs when the two clock readings coincide — is treated as "no cache":
here the first read returns 0 and the next read re-reads the clock and
returns 2. -/
theorem C6_counterexample :
    Bench.durationRead { time_start := some 5 } 5 5
      = Except.ok (0, { time_start := some 5, time_end := some 5, _duration := some 0 })
    ∧ Bench.durationRead { time_start := some 5, time_end := some 5, _duration := some 0 } 6 7
      = Except.ok (2, { time_start := some 5, time_end := some 6, _duration := some 2 })
    ∧ (0 : ℤ) ≠ 2 := by
  exact ⟨rfl, rfl, by decide⟩

/-- Claim C6, amended.  A read that returned value `d` leaves `d` cached, and
every subsequent read returns exactly that cached value with unchanged
state — provided `d` is nonzero; a cached `0.0` is falsy and would be
recomputed. -/
theorem C6_amended (b b1 : Bench) (d ta tb ta2 tb2 : ℤ)
    (hread : Bench.durationRead b ta tb = Except.ok (d, b1))
    (hnz : d ≠ 0) :
    b1._duration = some d ∧ Bench.durationRead b1 ta2 tb2 = Except.ok (d, b1) := by
  have main : ∀ b2 : Bench, b2._duration = some d →
      Bench.durationRead b2 ta2 tb2 = Except.ok (d, b2) := by
    intro b2 h2
    have hf2 : pyFalsy (some d) = false := by
      simp only [pyFalsy, beq_eq_false_iff_ne, ne_eq]
      exact hnz
    simp [Bench.durationRead, h2, hf2]
  have hcache : b1._duration = some d := by
    unfold Bench.durationRead at hread
    split at hread
    · split at hread
      · exact absurd hread (by simp)
      · simp only [Except.ok.injEq, Prod.mk.injEq] at hread
        obtain ⟨hd, hb1⟩ := hread
        subst hb1
        simp [hd]
    · rename_i hf
      rcases hd0 : b._duration with _ | d0
      · rw [hd0] at hf
        simp [pyFalsy] at hf
      · rw [hd0] at hread
        simp only [Except.ok.injEq, Prod.mk.injEq] at hread
        obtain ⟨hd, hb1⟩ := hread
        subst hb1
        rw [hd0, hd]
  exact ⟨hcache, main b1 hcache⟩

/-- Claim C6, witness: a nonzero first read (value 2) is cached and returned
unchanged by the second read. -/
theorem C6_witness :
    ({ time_start := some 5, time_end := some 5, _duration := some 2 } : Bench)._duration
      = some 2
    ∧ Bench.durationRead { time_start := some 5, time_end := some 5, _duration := some 2 } 8 9
      = Except.ok (2, { time_start := some 5, time_end := some 5, _duration := some 2 }) :=
  C6_amended { time_start := some 5 }
    { time_start := some 5, time_end := some 5, _duration := some 2 }
    2 5 7 8 9 rfl (by decide)

/-- Claim C7.  Reading `duration` on a freshly entered timer — before any of
the phase's work — finalizes on demand: it returns normally (no error) with
the value `tb - ts`, the clock advance between entry and the read, which is
non-negative for a monotone clock (and near zero in that no work separates
the readings). -/
theorem C7 (title : Option String) (ts ta tb : ℤ) (hta : ts ≤ ta) (htb : ta ≤ tb) :
    Bench.durationRead (Bench.enter { title := title } ts) ta tb
      = Except.ok (tb - ts,
          { title := title, time_start := some ts, time_end := some ta
            _duration := some (tb - ts) })
    ∧ 0 ≤ tb - ts := by
  constructor
  · rfl
  · linarith

/-- Claim C7, witness: the timer entered and read at the same instant yields
duration `1 - 1 = 0` without an error. -/
theorem C7_witness :
    Bench.durationRead (Bench.enter { title := some "phase" } 1) 1 1
      = Except.ok ((1 : ℤ) - 1,
          { title := some "phase", time_start := some 1, time_end := some 1
            _duration := some ((1 : ℤ) - 1) })
    ∧ (0 : ℤ) ≤ (1 : ℤ) - 1 :=
  C7 (some "phase") 1 1 1 (by decide) (by decide)

/-- Unrolling specification of the schema-sync loop: a converged run exits at
the first attempt whose `count` is 2, having slept once per earlier
(missing) attempt. -/
theorem schemaSyncLoop_done_spec (obs : Nat → ResultObject) :
    ∀ (fuel k0 s0 k s : Nat),
      schemaSyncLoop obs fuel k0 s0 = PollResult.done k s →
      k0 ≤ k ∧ (obs k).count = some 2 ∧ s = s0 + (k - k0)
        ∧ ∀ j, k0 ≤ j → j < k → (obs j).count ≠ some 2 := by
  intro fuel
  induction fuel with
  | zero =>
      intro k0 s0 k s h
      simp [schemaSyncLoop] at h
  | succ fuel ih =>
      intro k0 s0 k s h
      simp only [schemaSyncLoop] at h
      by_cases hc : (obs k0).count = some 2
      · rw [if_pos hc] at h
        injection h with hk hs
        subst hk
        subst hs
        exact ⟨le_refl _, hc, by omega, fun j hj1 hj2 => by omega⟩
      · rw [if_neg hc] at h
        obtain ⟨hk, hcount, hs, hmiss⟩ := ih (k0 + 1) (s0 + 1) k s h
        refine ⟨by omega, hcount, by omega, fun j hj1 hj2 => ?_⟩
        rcases Nat.eq_or_lt_of_le hj1 with heq | hlt
        · rw [← heq]
          exact hc
        · exact hmiss j hlt hj2

/-- A schema-sync run over observations that never report count 2 is still
running after any amount of fuel: the source loop never exits. -/
theorem schemaSyncLoop_never (obs : Nat → ResultObject)
    (h : ∀ k, (obs k).count ≠ some 2) :
    ∀ fuel k0 s0, schemaSyncLoop obs fuel k0 s0 = PollResult.running := by
  intro fuel
  induction fuel with
  | zero => intro k0 s0; rfl
  | succ fuel ih =>
      intro k0 s0
      simp only [schemaSyncLoop]
      rw [if_neg (h k0)]
      exact ih _ _

/-- Unrolling specification of the read-convergence loop: a converged run
exits at the first attempt whose extracted count equals `record_count`,
every earlier attempt having extracted successfully, compared unequal, and
been followed by exactly one sleep. -/
theorem readConvLoop_done_spec (obs : Nat → ResultObject) (record_count : Int) :
    ∀ (fuel k0 s0 k s : Nat),
      readConvLoop obs record_count fuel k0 s0 = PollResult.done k s →
      k0 ≤ k ∧ s = s0 + (k - k0)
        ∧ (∃ v, extractInsertedCount (obs k) = Except.ok v
            ∧ valueEqInt v record_count = true)
        ∧ ∀ j, k0 ≤ j → j < k →
            ∃ v, extractInsertedCount (obs j) = Except.ok v
              ∧ valueEqInt v record_count = false := by
  intro fuel
  induction fuel with
  | zero =>
      intro k0 s0 k s h
      simp [readConvLoop] at h
  | succ fuel ih =>
      intro k0 s0 k s h
      simp only [readConvLoop] at h
      rcases hx : extractInsertedCount (obs k0) with m | v
      · rw [hx] at h
        exact absurd h (by simp)
      · rw [hx] at h
        have h' : (if valueEqInt v record_count = true then PollResult.done k0 s0
            else readConvLoop obs record_count fuel (k0 + 1) (s0 + 1))
            = PollResult.done k s := h
        clear h
        rename' h' => h
        by_cases hv : valueEqInt v record_count = true
        · rw [if_pos hv] at h
          injection h with hk hs
          subst hk
          subst hs
          exact ⟨le_refl _, by omega, ⟨v, hx, hv⟩, fun j hj1 hj2 => by omega⟩
        · rw [if_neg hv] at h
          obtain ⟨hk, hs, hdone, hmiss⟩ := ih (k0 + 1) (s0 + 1) k s h
          refine ⟨by omega, by omega, hdone, fun j hj1 hj2 => ?_⟩
          rcases Nat.eq_or_lt_of_le hj1 with heq | hlt
          · rw [← heq]
            exact ⟨v, hx, by simpa using hv⟩
          · exact hmiss j hlt hj2

/-- A read-convergence run whose every attempt extracts a value unequal to
`record_count` is still running after any amount of fuel. -/
theorem readConvLoop_never (obs : Nat → ResultObject) (record_count : Int)
    (h : ∀ k, ∃ v, extractInsertedCount (obs k) = Except.ok v
        ∧ valueEqInt v record_count = false) :
    ∀ fuel k0 s0, readConvLoop obs record_count fuel k0 s0 = PollResult.running := by
  intro fuel
  induction fuel with
  | zero => intro k0 s0; rfl
  | succ fuel ih =>
      intro k0 s0
      obtain ⟨v, hx, hv⟩ := h k0
      simp only [readConvLoop]
      rw [hx]
      show (if valueEqInt v record_count = true then PollResult.done k0 s0
          else readConvLoop obs record_count fuel (k0 + 1) (s0 + 1))
          = PollResult.running
      rw [if_neg (by simp [hv])]
      exact ih _ _

/-- Claim C3.  Both poll loops sleep a fixed interval (1s for schema sync, 2s
for read convergence — in the model one counted sleep per failed attempt)
and retry, with no bound and no timeout: a converged run exits exactly at
the first attempt whose observed value equals the expected value, with one
sleep per earlier differing attempt; over observations that never match,
the loop is still running after any fuel — it runs forever. -/
theorem C3_polling (obs1 obs2 : Nat → ResultObject) (record_count : Int) :
    schemaSyncSleepSeconds = 1 ∧ readConvSleepSeconds = 2
    ∧ (∀ fuel k s, schemaSyncLoop obs1 fuel 0 0 = PollResult.done k s →
        (obs1 k).count = some 2 ∧ s = k ∧ ∀ j, j < k → (obs1 j).count ≠ some 2)
    ∧ ((∀ k, (obs1 k).count ≠ some 2) →
        ∀ fuel, schemaSyncLoop obs1 fuel 0 0 = PollResult.running)
    ∧ (∀ fuel k s, readConvLoop obs2 record_count fuel 0 0 = PollResult.done k s →
        (∃ v, extractInsertedCount (obs2 k) = Except.ok v
            ∧ valueEqInt v record_count = true)
          ∧ s = k
          ∧ ∀ j, j < k → ∃ v, extractInsertedCount (obs2 j) = Except.ok v
              ∧ valueEqInt v record_count = false)
    ∧ ((∀ k, ∃ v, extractInsertedCount (obs2 k) = Except.ok v
          ∧ valueEqInt v record_count = false) →
        ∀ fuel, readConvLoop obs2 record_count fuel 0 0 = PollResult.running) := by
  refine ⟨rfl, rfl, ?_, ?_, ?_, ?_⟩
  · intro fuel k s h
    obtain ⟨_, hcount, hs, hmiss⟩ := schemaSyncLoop_done_spec obs1 fuel 0 0 k s h
    exact ⟨hcount, by omega, fun j hj => hmiss j (Nat.zero_le j) hj⟩
  · intro h fuel
    exact schemaSyncLoop_never obs1 h fuel 0 0
  · intro fuel k s h
    obtain ⟨_, hs, hdone, hmiss⟩ := readConvLoop_done_spec obs2 record_count fuel 0 0 k s h
    exact ⟨hdone, by omega, fun j hj => hmiss j (Nat.zero_le j) hj⟩
  · intro h fuel
    exact readConvLoop_never obs2 record_count h fuel 0 0

/-- Claim C3, witness: over a backend that never reports two schema objects
(`count` stays `None`), the schema-sync poller is still running after three
unrolled attempts. -/
theorem C3_witness :
    schemaSyncLoop (fun _ => { }) 3 0 0 = PollResult.running :=
  (C3_polling (fun _ => { }) (fun _ => { }) 1).2.2.2.1 (fun _ => by decide) 3

/-- Claim C9.  Whenever the schema-sync wait loop exits, the attempt it
exited on — the most recent schema-catalog query — returned `count = 2`:
the loop condition `count != 2` was false. -/
theorem C9_schemaSyncExit (obs : Nat → ResultObject) (fuel k s : Nat)
    (h : schemaSyncLoop obs fuel 0 0 = PollResult.done k s) :
    (obs k).count = some 2 :=
  (schemaSyncLoop_done_spec obs fuel 0 0 k s h).2.1

/-- Claim C9, witness: a backend reporting two schema objects immediately
makes the loop exit on its first attempt with that count. -/
theorem C9_witness : ({ count := some 2 } : ResultObject).count = some 2 :=
  C9_schemaSyncExit (fun _ => { count := some 2 }) 1 0 0 rfl

/-- Claim C10.  The failure `ResultObject` built for a caught backend error
has `records = None`, so the read-convergence extraction
`.records[0]["c"]` raises `TypeError` on it: the poll loop hitting such a
result at any attempt goes fatal at once (aborting the run) instead of
treating the failed poll as a miss and retrying. -/
theorem C10_failedPollFatal (message code : String) (t0 t1 t2 t3 t4 : ℤ)
    (obs : Nat → ResultObject) (record_count : Int) (fuel k s : Nat) (r : ResultObject)
    (hr : SQLClient.execute (RawOutcome.libsqlError message code) t0 t1 t2 t3 t4
            = ExecResult.ok r)
    (hk : obs k = r) :
    r.records = none
    ∧ extractInsertedCount r = Except.error "TypeError"
    ∧ readConvLoop obs record_count (fuel + 1) k s = PollResult.fatal "TypeError" := by
  have hrv : ExecResult.ok { success := some false, error := some ⟨message, code⟩ }
      = ExecResult.ok r := hr
  have hrv2 : ({ success := some false, error := some ⟨message, code⟩ } : ResultObject)
      = r := by
    injection hrv
  subst hrv2
  refine ⟨rfl, rfl, ?_⟩
  simp only [readConvLoop]
  rw [hk]
  rfl

/-- Claim C10, witness: a backend error during the first poll attempt
aborts the read-convergence loop with a `TypeError` instead of retrying. -/
theorem C10_witness :
    ({ success := some false, error := some ⟨"boom", "SQLITE_UNKNOWN"⟩ } : ResultObject).records
      = none
    ∧ extractInsertedCount { success := some false, error := some ⟨"boom", "SQLITE_UNKNOWN"⟩ }
        = Except.error "TypeError"
    ∧ readConvLoop
        (fun _ => { success := some false, error := some ⟨"boom", "SQLITE_UNKNOWN"⟩ }) 5 1 0 0
        = PollResult.fatal "TypeError" :=
  C10_failedPollFatal "boom" "SQLITE_UNKNOWN" 0 0 0 0 0
    (fun _ => { success := some false, error := some ⟨"boom", "SQLITE_UNKNOWN"⟩ }) 5 0 0 0
    { success := some false, error := some ⟨"boom", "SQLITE_UNKNOWN"⟩ } rfl rfl

/-- A dict lookup misses when no entry has the key. -/
theorem pyGet_eq_none (record : Record) (k : String) (h : ∀ p ∈ record, p.1 ≠ k) :
    pyGet record k = none := by
  induction record with
  | nil => rfl
  | cons p rest ih =>
      obtain ⟨k', v⟩ := p
      simp only [pyGet]
      rw [if_neg (h (k', v) (List.mem_cons_self _ _))]
      exact ih fun q hq => h q (List.mem_cons_of_mem _ hq)

/-- Inserting a fresh key appends it, preserving insertion order. -/
theorem dictInsert_of_none (d : Record) (k : String) (v : Value)
    (h : pyGet d k = none) : dictInsert d k v = d ++ [(k, v)] := by
  simp [dictInsert, h]

/-- Appending an entry with a different key does not create a hit. -/
theorem pyGet_append_single (acc : Record) (k c : String) (f : Value)
    (h1 : pyGet acc k = none) (h2 : c ≠ k) :
    pyGet (acc ++ [(c, f)]) k = none := by
  induction acc with
  | nil => simp [pyGet, h2]
  | cons p rest ih =>
      obtain ⟨k', v⟩ := p
      simp only [List.cons_append, pyGet] at h1 ⊢
      by_cases hk : k' = k
      · rw [if_pos hk] at h1
        exact absurd h1 (by simp)
      · rw [if_neg hk] at h1 ⊢
        exact ih h1

/-- The indexed row loop equals the structural walk over the column suffix. -/
theorem buildRecordAux_eq_from (cols : List String) :
    ∀ (row : List Value) (x : Nat) (acc : Record),
      buildRecordAux cols acc x row = buildRecordFrom row (cols.drop x) acc := by
  intro row
  induction row with
  | nil => intro x acc; rfl
  | cons field rest ih =>
      intro x acc
      simp only [buildRecordAux]
      rcases hdrop : cols.drop x with _ | ⟨c, cs⟩
      · have hlen : cols.length ≤ x := List.drop_eq_nil_iff.mp hdrop
        rw [List.getElem?_eq_none hlen]
        rfl
      · have hhead : cols[x]? = some c := by
          rw [← List.head?_drop, hdrop]
          rfl
        rw [hhead]
        have hcs : cols.drop (x + 1) = cs := by
          rw [← List.tail_drop, hdrop]
          rfl
        show buildRecordAux cols (dictInsert acc c field) (x + 1) rest
            = buildRecordFrom rest cs (dictInsert acc c field)
        rw [ih (x + 1) (dictInsert acc c field), hcs]

/-- Over distinct columns whose keys are all fresh for the accumulator, the
row walk produces exactly the column-order zip appended to the
accumulator. -/
theorem buildRecordFrom_spec :
    ∀ (cs : List String) (row : List Value) (acc : Record),
      cs.Nodup →
      row.length = cs.length →
      (∀ c ∈ cs, pyGet acc c = none) →
      buildRecordFrom row cs acc = some (acc ++ cs.zip row) := by
  intro cs
  induction cs with
  | nil =>
      intro row acc hnd hlen hdisj
      rcases row with _ | ⟨f, rest⟩
      · simp [buildRecordFrom]
      · simp at hlen
  | cons c cs ih =>
      intro row acc hnd hlen hdisj
      rcases row with _ | ⟨f, rest⟩
      · simp at hlen
      · have hc : pyGet acc c = none := hdisj c (List.mem_cons_self c cs)
        have hnd' := (List.nodup_cons.mp hnd).2
        have hcnot := (List.nodup_cons.mp hnd).1
        show buildRecordFrom rest cs (dictInsert acc c f)
            = some (acc ++ (c :: cs).zip (f :: rest))
        rw [dictInsert_of_none _ _ _ hc]
        rw [ih rest (acc ++ [(c, f)]) hnd' (by simpa using hlen) ?fresh]
        case fresh =>
          intro k hk
          exact pyGet_append_single acc k c f (hdisj k (List.mem_cons_of_mem _ hk))
            fun he => hcnot (he ▸ hk)
        simp [List.zip_cons_cons, List.append_assoc]

/-- For a row exactly as long as the distinct column list, the built record
is the column-order zip. -/
theorem buildRecord_eq_zip (cols : List String) (row : List Value)
    (hnd : cols.Nodup) (hlen : row.length = cols.length) :
    buildRecord cols row = some (cols.zip row) := by
  unfold buildRecord
  rw [buildRecordAux_eq_from cols row 0 [], List.drop_zero,
    buildRecordFrom_spec cols row [] hnd hlen fun c hc => rfl]
  simp

/-- The outer loop builds one record per row, in row order, when every row
builds. -/
theorem buildRecords_eq_map (cols : List String) :
    ∀ rows : List (List Value),
      (∀ row ∈ rows, buildRecord cols row = some (cols.zip row)) →
      buildRecords cols rows = some (rows.map fun row => cols.zip row) := by
  intro rows
  induction rows with
  | nil => intro h; rfl
  | cons row rest ih =>
      intro h
      have h1 : buildRecord cols row = some (cols.zip row) :=
        h row (List.mem_cons_self _ _)
      have h2 := ih fun r hr => h r (List.mem_cons_of_mem _ hr)
      simp only [buildRecords]
      rw [h1, h2]
      rfl

/-- In the zip of distinct columns with a row, each column name looks up the
row's value at the same position. -/
theorem pyGet_zip :
    ∀ (cols : List String) (row : List Value) (j : Nat) (hnd : cols.Nodup)
      (hj : j < cols.length) (hr : j < row.length),
      pyGet (cols.zip row) (cols.get ⟨j, hj⟩) = some (row.get ⟨j, hr⟩) := by
  intro cols
  induction cols with
  | nil =>
      intro row j hnd hj hr
      exact absurd hj (by simp)
  | cons c cs ih =>
      intro row j hnd hj hr
      rcases row with _ | ⟨f, fs⟩
      · exact absurd hr (by simp)
      · cases j with
        | zero => simp [pyGet]
        | succ j =>
            have hnd' := (List.nodup_cons.mp hnd).2
            have hcnot := (List.nodup_cons.mp hnd).1
            have hj' : j < cs.length := by simpa using hj
            have hr' : j < fs.length := by simpa using hr
            have hkey : (c :: cs).get ⟨j + 1, hj⟩ = cs.get ⟨j, hj'⟩ := rfl
            simp only [List.zip_cons_cons, pyGet, hkey]
            rw [if_neg ?hne]
            case hne =>
              intro hceq
              exact hcnot (by rw [hceq]; exact List.get_mem cs j hj')
            exact ih fs j hnd' hj' hr'

/-- Claim C8.  For a successful raw result set (with distinct column names
and rows as long as the column list, as a SQL result set has), the
normalizer builds one record per row in row order; each record maps each
column name, in column order, to that row's value at the same position;
and `count` is set to the length of the records sequence. -/
theorem C8_normalizer (rs : ResultSet) (hnd : rs.columns.Nodup)
    (hlen : ∀ row ∈ rs.rows, row.length = rs.columns.length) :
    ∃ obj, initResultSet rs = some obj
      ∧ obj.success = some true
      ∧ obj.records = some (rs.rows.map fun row => rs.columns.zip row)
      ∧ obj.count = some (rs.rows.map fun row => rs.columns.zip row).length
      ∧ (rs.rows.map fun row => rs.columns.zip row).length = rs.rows.length
      ∧ ∀ row ∈ rs.rows, ∀ (j : Nat) (hj : j < rs.columns.length) (hr : j < row.length),
          pyGet (rs.columns.zip row) (rs.columns.get ⟨j, hj⟩)
            = some (row.get ⟨j, hr⟩) := by
  have hrecs : buildRecords rs.columns rs.rows
      = some (rs.rows.map fun row => rs.columns.zip row) :=
    buildRecords_eq_map rs.columns rs.rows
      fun row hr => buildRecord_eq_zip rs.columns row hnd (hlen row hr)
  refine ⟨{ columns := some rs.columns
            records := some (rs.rows.map fun row => rs.columns.zip row)
            last_insert_rowid := rs.last_insert_rowid
            rows_affected := some rs.rows_affected
            count := some (rs.rows.map fun row => rs.columns.zip row).length
            success := some true }, ?_, rfl, rfl, rfl, by simp, ?_⟩
  · simp only [initResultSet, hrecs]
  · intro row hrow j hj hr
    exact pyGet_zip rs.columns row j hnd hj hr

/-- Claim C8, witness at a two-column, one-row result set. -/
theorem C8_witness :
    ∃ obj,
      initResultSet ⟨["name", "age"], [[Value.text "Pony0", Value.int 0]], some 1, 1⟩
        = some obj
      ∧ obj.success = some true
      ∧ obj.records = some (([[Value.text "Pony0", Value.int 0]] : List (List Value)).map
          fun row => (["name", "age"] : List String).zip row)
      ∧ obj.count = some (([[Value.text "Pony0", Value.int 0]] : List (List Value)).map
          fun row => (["name", "age"] : List String).zip row).length
      ∧ (([[Value.text "Pony0", Value.int 0]] : List (List Value)).map
          fun row => (["name", "age"] : List String).zip row).length
        = ([[Value.text "Pony0", Value.int 0]] : List (List Value)).length
      ∧ ∀ row ∈ ([[Value.text "Pony0", Value.int 0]] : List (List Value)),
          ∀ (j : Nat) (hj : j < (["name", "age"] : List String).length)
            (hr : j < row.length),
            pyGet ((["name", "age"] : List String).zip row)
              ((["name", "age"] : List String).get ⟨j, hj⟩)
              = some (row.get ⟨j, hr⟩) :=
  C8_normalizer ⟨["name", "age"], [[Value.text "Pony0", Value.int 0]], some 1, 1⟩
    (by decide) (by decide)

end LibsqlBench
